import Mathlib

/-!
Shallow embedding of `tpot/builtins/meta_estimator.py` (confound-adjustment
meta-estimator): column-type classification, per-column adjustment,
subset resolution, outcome adjustment and the two facades
`MetaRegressor` / `MetaClassifier`.

Numeric values are modelled as rationals.  The external collaborators
(`LinearRegression`, `LogisticRegression`, the wrapped estimator) are
abstracted as function-valued records supplied by a `Backend`, mirroring
the interface contract the source relies on (`fit`, `predict`,
`predict_proba`, `classes_`).  Matrices are represented by their list of
columns, so `np.hstack` (axis 1) is list append.  Fallible Python
operations (pandas `drop`/`__getitem__` raising `KeyError`, the Python-3
semantics of `raise (ValueError, msg)`, missing-method and indexing
failures) are modelled with `Except`.
-/

/-- Python exception kinds that the translated code can raise. -/
inductive PyError where
  | typeError
  | valueError
  | keyError
  | attributeError
  | indexError
  | nameError
deriving DecidableEq

/-- A 1-D numeric array (one column, one row of predictions, ...). -/
abbrev Col : Type := List ℚ

/-- A 2-D array, represented by its list of columns
(so `np.hstack` along axis 1 is list append). -/
abbrev Mat : Type := List Col

/-- Number of rows of a matrix (length of its first column). -/
def rowsOf (m : Mat) : Nat := (m.headD []).length

/-- `ndarray.size`: the total number of entries. -/
def matSize (m : Mat) : Nat := (m.map List.length).sum

/-- `np.hstack` of two matrices along axis 1. -/
def hstack (a b : Mat) : Mat := a ++ b

/-- Accumulation step used for `X_subset_adj` in the tuple-subset branches:
`if X_subset_adj.size == 0: X_subset_adj = tmp else: np.hstack(...)`. -/
def hstackAcc (acc tmp : Mat) : Mat :=
  if matSize acc = 0 then tmp else hstack acc tmp

/-- A pandas `DataFrame`: ordered, named columns (names assumed unique,
as in the source's usage). -/
structure DataFrame where
  cols : List (String × Col)
deriving DecidableEq

/-- `df.columns`. -/
def DataFrame.columns (df : DataFrame) : List String := df.cols.map Prod.fst

/-- Number of rows (length of the first column, 0 for no columns). -/
def DataFrame.numRows (df : DataFrame) : Nat :=
  ((df.cols.head?).map (fun p => p.2.length)).getD 0

/-- pandas `df.empty`: true when either axis has length 0. -/
def DataFrame.isEmpty (df : DataFrame) : Bool :=
  df.cols.isEmpty || decide (df.numRows = 0)

/-- The underlying 2-D value block `df.values`, as a list of columns. -/
def DataFrame.toMat (df : DataFrame) : Mat := df.cols.map Prod.snd

/-- Column selection `df[names]` restricted to names that are present
(total helper; the raising form is `DataFrame.select`). -/
def DataFrame.selectP (df : DataFrame) (names : List String) : DataFrame :=
  ⟨names.filterMap (fun n => (df.cols.find? (fun p => p.1 == n)).map (fun p => (n, p.2)))⟩

/-- pandas `df[names]`: raises `KeyError` when any requested name is absent. -/
def DataFrame.select (df : DataFrame) (names : List String) :
    Except PyError DataFrame :=
  if names.all (fun n => df.columns.contains n) then .ok (df.selectP names)
  else .error .keyError

/-- Column removal ignoring absence (total helper for `DataFrame.drop`). -/
def DataFrame.dropP (df : DataFrame) (names : List String) : DataFrame :=
  ⟨df.cols.filter (fun p => !(names.contains p.1))⟩

/-- pandas `df.drop(names, axis=1)`: raises `KeyError` when any label
is not found in the axis (the default `errors='raise'`). -/
def DataFrame.drop (df : DataFrame) (names : List String) :
    Except PyError DataFrame :=
  if names.all (fun n => df.columns.contains n) then .ok (df.dropP names)
  else .error .keyError

/-- Python `int(a)` on a numeric value: truncation toward zero. -/
def pyInt (q : ℚ) : ℤ := if 0 ≤ q then ⌊q⌋ else ⌈q⌉

/-- `ndarray.astype(np.int32)`: truncate toward zero, wrapping modulo `2^32`
into `[-2^31, 2^31)` on overflow (C-style conversion). -/
def toInt32 (q : ℚ) : ℤ := Int.bmod (pyInt q) (2 ^ 32)

/-- The boolean the loop inside `check_if_any_float` computes:
whether some entry differs from its integer truncation (`int(a) != a`). -/
def if_any_float_value (snp_array : Col) : Bool :=
  snp_array.any (fun a => decide (((pyInt a : ℤ) : ℚ) ≠ a))

/-- `check_if_any_float(snp_array)`: the loop computes `if_any_float`, but the
function ends with a bare `return`, so the caller always receives `None`. -/
def check_if_any_float (snp_array : Col) : Option Bool :=
  let _ := if_any_float_value snp_array
  Option.none

/-- Python truthiness of an optional boolean (`None` is falsy). -/
def pyTruthy : Option Bool → Bool
  | Option.none => false
  | Option.some b => b

/-- Python `==` applied to a list and a string: operands of different types,
so the comparison is always `False`.  This embeds the guard
`if values == 'dosage'` of `X_adj_fit`, where `values` is the tag list. -/
def listEqString (_l : List String) (_s : String) : Bool := false

/-- A fitted `LogisticRegression`: `classes_` (ordered as the model reports
them), `predict_proba` (one probability column per class, aligned with
`classes_`, each of row length) and `predict`. -/
structure ClfModel where
  classes : List ℚ
  proba : Mat → Mat
  predictCls : Mat → Col

/-- A per-column nuisance estimator stored in `col_est`: either a fitted
`LinearRegression` (its `predict` function) or a fitted `LogisticRegression`. -/
inductive ColEst where
  | lin (predict : Mat → Col)
  | clf (model : ClfModel)

/-- Whether a stored per-column estimator is a `LogisticRegression`. -/
def ColEst.isClf : ColEst → Bool
  | .lin _ => false
  | .clf _ => true

/-- The abstract fitting services (external collaborators): a fitted
`LinearRegression().fit(B, t).predict` and a fitted
`LogisticRegression(penalty='none', ...).fit(B, labels)`. -/
structure Backend where
  fitLinear : Mat → Col → (Mat → Col)
  fitLogistic : Mat → Col → ClfModel

/-- The wrapped downstream estimator: `fit` produces a fitted model state,
`predict` consumes it. -/
structure WrappedEstimator (M : Type) where
  fit : Mat → Col → M
  predict : M → Mat → Col

/-- The probability-weighted subtraction loop of `X_adj_fit`/`X_adj_predict`:
`for gt_idx, gt in enumerate(clf.classes_): adj = adj - int(gt) * proba[:, gt_idx]`. -/
def colAdjClf (m : ClfModel) (c : Mat) (colv : Col) : Col :=
  (m.classes.zip (m.proba c)).foldl
    (fun acc gp => acc.zipWith (fun x p => x - ((pyInt gp.1 : ℤ) : ℚ) * p) gp.2)
    colv

/-- The probability-weighted expectation loop of `MetaClassifier`:
`pi = zeros(n); for gt_idx, gt in enumerate(classes_): pi = pi + int(gt) * proba[:, gt_idx]`. -/
def probaExpectation (m : ClfModel) (b : Mat) (n : Nat) : Col :=
  (m.classes.zip (m.proba b)).foldl
    (fun acc gp => acc.zipWith (fun x p => x + ((pyInt gp.1 : ℤ) : ℚ) * p) gp.2)
    (List.replicate n 0)

/-- One iteration of the column loop of `X_adj_fit`: classify the column
(`check_if_any_float` feeds the `values` tag), then dispatch on the
source's guard `values == 'dosage'` (the whole tag list against a string). -/
def X_adj_fit_step (be : Backend) (c_train : Mat)
    (acc : Mat × List ColEst × List String) (col : String × Col) :
    Mat × List ColEst × List String :=
  let colv := col.2
  let value := if pyTruthy (check_if_any_float colv) then "dosage" else "ternary"
  let values := acc.2.2 ++ [value]
  if listEqString values "dosage" then
    let regr := be.fitLinear c_train colv
    (acc.1 ++ [colv.zipWith (fun a b => a - b) (regr c_train)],
     acc.2.1 ++ [ColEst.lin regr], values)
  else
    let clf := be.fitLogistic c_train (colv.map (fun a => ((toInt32 a : ℤ) : ℚ)))
    (acc.1 ++ [colAdjClf clf c_train colv],
     acc.2.1 ++ [ColEst.clf clf], values)

/-- `X_adj_fit(X_train, C_train)`: returns the adjusted matrix, the stored
per-column estimators and the per-column type tags; an empty frame is
returned unchanged with empty collections. -/
def X_adj_fit (be : Backend) (x_train : DataFrame) (c_train : Mat) :
    Mat × List ColEst × List String :=
  if x_train.isEmpty then (x_train.toMat, [], [])
  else x_train.cols.foldl (X_adj_fit_step be c_train) ([], [], [])

/-- One column of `X_adj_predict`: dispatch on the stored tag; the
`'dosage'` branch calls `est.predict`, the other branch calls
`est.predict_proba` (an `AttributeError` were the stored model linear). -/
def colAdjPredict (est : ColEst) (tag : String) (c_test : Mat) (colv : Col) :
    Except PyError Col :=
  if tag = "dosage" then
    match est with
    | .lin f => .ok (colv.zipWith (fun a b => a - b) (f c_test))
    | .clf m => .ok (colv.zipWith (fun a b => a - b) (m.predictCls c_test))
  else
    match est with
    | .lin _ => .error .attributeError
    | .clf m => .ok (colAdjClf m c_test colv)

/-- `X_adj_predict(X_test, C_test, col_est, values)`: replays the stored
per-column estimators positionally; `zip` truncates to the shortest of the
tag list, the estimator list and the column count, and columns beyond it
keep the `np.zeros` initialisation. -/
def X_adj_predict (x_test : DataFrame) (c_test : Mat)
    (col_est : List ColEst) (values : List String) : Except PyError Mat :=
  if x_test.isEmpty then .ok x_test.toMat
  else
    let n := x_test.cols.length
    let k := min (min values.length col_est.length) n
    (List.range n).mapM (fun col =>
      if col < k then
        colAdjPredict (col_est.getD col (ColEst.lin (fun _ => [])))
          (values.getD col "") c_test ((x_test.cols.getD col ("", [])).2)
      else .ok (List.replicate x_test.numRows 0))

/-- The `subset` configuration: `None`, a flat list of feature names, or an
ordered collection of (covariate-names, feature-names) pairs. -/
inductive Subset where
  | flatNone
  | list (names : List String)
  | tuple (pairs : List (List String × List String))

/-- Constructor arguments shared by `MetaRegressor` and `MetaClassifier`:
the wrapped estimator and the `A` / `C` / `subset` configuration. -/
structure Config (M : Type) where
  estimator : WrappedEstimator M
  A : Option (List String)
  C : Option (List String)
  subset : Subset

/-- The facade-owned fitted state (`self.col_ests`, `self.values_list`,
`self.sel_subset`, `self.B_est`, and the wrapped estimator's fitted model);
`B` is the outcome-model type (`Mat → Col` for the regressor,
`ClfModel` for the classifier). -/
structure MetaState (B : Type) (M : Type) where
  col_ests : List (List ColEst)
  values_list : List (List String)
  sel_subset : List String
  B_est : B
  est_model : M

/-- Drop an optional name list (`if names is not None: X.drop(names, axis=1)`). -/
def dropOpt (df : DataFrame) : Option (List String) → Except PyError DataFrame
  | Option.none => .ok df
  | Option.some ns => df.drop ns

/-- The feature block: a copy of `X` with the `A` and `C` columns removed. -/
def featureFrame (a c : Option (List String)) (x : DataFrame) :
    Except PyError DataFrame :=
  (dropOpt x a).bind (fun x1 => dropOpt x1 c)

/-- `if self.A is not None: A = X[self.A].values`. -/
def selectA (x : DataFrame) : Option (List String) → Except PyError (Option Mat)
  | Option.none => .ok Option.none
  | Option.some an => (x.select an).map (fun d => Option.some d.toMat)

/-- The covariate-block dispatch `B = A / C / np.hstack((A, C))`; with both
absent the `else` branch reads the unbound local `A_train` (`NameError`). -/
def buildB (aMat cMat : Option Mat) : Except PyError Mat :=
  match aMat, cMat with
  | Option.some am, Option.none => .ok am
  | Option.none, Option.some cm => .ok cm
  | Option.some am, Option.some cm => .ok (hstack am cm)
  | Option.none, Option.none => .error .nameError

/-- `y - pi`: the residual target fed to the wrapped estimator at fit time. -/
def residual_target (y pi_ : Col) : Col := y.zipWith (fun a b => a - b) pi_

/-- `y_adj_pred + pi`: undo the residualization on predictions. -/
def reconstruct (yAdjPred pi_ : Col) : Col := yAdjPred.zipWith (fun a b => a + b) pi_

/-- The `for subC, ssubset in self.subset` loop of `fit` (tuple form):
per pair, restrict the feature names to those present, extend
`self.sel_subset`, select that pair's own covariate block `X[subC]`,
adjust, accumulate the adjusted block and append the pair's estimators
and tags.  Errors carry the state as mutated so far. -/
def tupleFitLoop {B M : Type} (be : Backend) (x x_train : DataFrame) :
    List (List String × List String) → MetaState B M → Mat →
    Except (PyError × MetaState B M) (MetaState B M × Mat)
  | [], st, acc => .ok (st, acc)
  | p :: rest, st, acc =>
    let comm := p.2.filter (fun a => x_train.columns.contains a)
    let st1 := { st with sel_subset := st.sel_subset ++ comm }
    match x.select p.1 with
    | .error e => .error (e, st1)
    | .ok cdf =>
      match x_train.select comm with
      | .error e => .error (e, st1)
      | .ok xsub =>
        let r := X_adj_fit be xsub cdf.toMat
        tupleFitLoop be x x_train rest
          { st1 with col_ests := st1.col_ests ++ [r.2.1],
                     values_list := st1.values_list ++ [r.2.2] }
          (hstackAcc acc r.1)

/-- The feature-adjustment phase of `fit`, shared verbatim by both facades:
produces (updated state, `X_train_adj`, `C_train`).  With `C = None` the
features pass through unmodified and the stored lists are not touched;
otherwise `self.col_ests`/`self.values_list` are reset and the `subset`
configuration is dispatched. -/
def adjustFit {B M : Type} (be : Backend) (a c : Option (List String))
    (subset : Subset) (st : MetaState B M) (x : DataFrame) :
    Except (PyError × MetaState B M) (MetaState B M × Mat × Option Mat) :=
  match featureFrame a c x with
  | .error e => .error (e, st)
  | .ok x_train =>
    match c with
    | Option.none => .ok (st, x_train.toMat, Option.none)
    | Option.some cn =>
      let st1 := { st with col_ests := [], values_list := [] }
      match x.select cn with
      | .error e => .error (e, st1)
      | .ok cdf =>
        let c_train := cdf.toMat
        match subset with
        | .flatNone =>
          let r := X_adj_fit be x_train c_train
          .ok ({ st1 with col_ests := [r.2.1], values_list := [r.2.2] },
               r.1, Option.some c_train)
        | .list names =>
          let comm := names.filter (fun a => x_train.columns.contains a)
          match x_train.select comm with
          | .error e => .error (e, st1)
          | .ok xsub =>
            let r := X_adj_fit be xsub c_train
            match x_train.drop comm with
            | .error e => .error (e, st1)
            | .ok xunsel =>
              .ok ({ st1 with col_ests := [r.2.1], values_list := [r.2.2] },
                   hstack r.1 xunsel.toMat, Option.some c_train)
        | .tuple pairs =>
          match tupleFitLoop be x x_train pairs { st1 with sel_subset := [] } [] with
          | .error e => .error e
          | .ok (st2, xadj) =>
            match x_train.drop st2.sel_subset with
            | .error e => .error (e, st2)
            | .ok xunsel => .ok (st2, hstack xadj xunsel.toMat, Option.some c_train)

/-- `MetaRegressor.fit(X, y)`.  The opening guard embeds the Python-3
semantics of `raise(ValueError, "...")`: the tuple is not an exception, so
the statement raises `TypeError`, before any fitting work, with the state
unchanged.  Errors carry the state as mutated so far. -/
def MetaRegressor_fit {M : Type} (be : Backend) (cfg : Config M)
    (st : MetaState (Mat → Col) M) (x : DataFrame) (y : Col) :
    Except (PyError × MetaState (Mat → Col) M) (MetaState (Mat → Col) M) :=
  if cfg.A = Option.none ∧ cfg.C = Option.none then .error (.typeError, st)
  else
    match adjustFit be cfg.A cfg.C cfg.subset st x with
    | .error e => .error e
    | .ok (st1, xadj, cMat) =>
      match selectA x cfg.A with
      | .error e => .error (e, st1)
      | .ok aMat =>
        match buildB aMat cMat with
        | .error e => .error (e, st1)
        | .ok b_train =>
          let f := be.fitLinear b_train y
          let pi_train := f b_train
          let y_train_adj := residual_target y pi_train
          .ok { st1 with B_est := f,
                         est_model := cfg.estimator.fit xadj y_train_adj }

/-- The `for sub, col_est, values in zip(self.subset, self.col_ests,
self.values_list)` loop of `predict` (tuple form): per triple, select that
pair's own covariate block, restrict the feature names to those present,
replay the stored estimators and accumulate the adjusted block. -/
def tuplePredictLoop (x x_test : DataFrame) :
    List ((List String × List String) × List ColEst × List String) → Mat →
    Except PyError Mat
  | [], acc => .ok acc
  | t :: rest, acc =>
    match x.select t.1.1 with
    | .error e => .error e
    | .ok cdf =>
      let comm := t.1.2.filter (fun a => x_test.columns.contains a)
      match x_test.select comm with
      | .error e => .error e
      | .ok xsub =>
        match X_adj_predict xsub cdf.toMat t.2.1 t.2.2 with
        | .error e => .error e
        | .ok tmp => tuplePredictLoop x x_test rest (hstackAcc acc tmp)

/-- The feature-adjustment phase of `predict`, shared verbatim by both
facades: produces (`X_test_adj`, `C_test`) from the persisted state.  Note
the flat-list branch drops `self.subset` itself (not the restricted
`comm_features`), and the tuple branch drops the persisted
`self.sel_subset`. -/
def adjustPredict {B M : Type} (a c : Option (List String)) (subset : Subset)
    (st : MetaState B M) (x : DataFrame) : Except PyError (Mat × Option Mat) :=
  match featureFrame a c x with
  | .error e => .error e
  | .ok x_test =>
    match c with
    | Option.none => .ok (x_test.toMat, Option.none)
    | Option.some cn =>
      match x.select cn with
      | .error e => .error e
      | .ok cdf =>
        let c_test := cdf.toMat
        match subset with
        | .flatNone =>
          match st.col_ests.get? 0, st.values_list.get? 0 with
          | Option.some ce, Option.some vs =>
            (X_adj_predict x_test c_test ce vs).map
              (fun m => (m, Option.some c_test))
          | _, _ => .error .indexError
        | .list names =>
          let comm := names.filter (fun a => x_test.columns.contains a)
          match x_test.select comm with
          | .error e => .error e
          | .ok xsub =>
            match x_test.drop names with
            | .error e => .error e
            | .ok xunsel =>
              match st.col_ests.get? 0, st.values_list.get? 0 with
              | Option.some ce, Option.some vs =>
                (X_adj_predict xsub c_test ce vs).map
                  (fun blk => (hstack blk xunsel.toMat, Option.some c_test))
              | _, _ => .error .indexError
        | .tuple pairs =>
          match tuplePredictLoop x x_test
              (pairs.zip (st.col_ests.zip st.values_list)) [] with
          | .error e => .error e
          | .ok blk =>
            match x_test.drop st.sel_subset with
            | .error e => .error e
            | .ok xunsel => .ok (hstack blk xunsel.toMat, Option.some c_test)

/-- `MetaRegressor.predict(X)`: replays the adjustment from persisted state,
predicts with the wrapped estimator on the adjusted features and adds back
`pi`.  The method assigns no attribute, so the resulting facade state is the
input state. -/
def MetaRegressor_predict {M : Type} (cfg : Config M)
    (st : MetaState (Mat → Col) M) (x : DataFrame) :
    Except PyError (MetaState (Mat → Col) M × Col) :=
  match adjustPredict cfg.A cfg.C cfg.subset st x with
  | .error e => .error e
  | .ok (xadj, cMat) =>
    match selectA x cfg.A with
    | .error e => .error e
    | .ok aMat =>
      if cfg.A = Option.none ∧ cfg.C = Option.none then .error .typeError
      else
        match buildB aMat cMat with
        | .error e => .error e
        | .ok b_test =>
          let pi_test := st.B_est b_test
          let y_test_adj_pred := cfg.estimator.predict st.est_model xadj
          .ok (st, reconstruct y_test_adj_pred pi_test)

/-- `MetaClassifier.fit(X, y)`: identical to the regressor's fit except the
outcome model is a multinomial `LogisticRegression` and `pi` is the
probability-weighted class expectation. -/
def MetaClassifier_fit {M : Type} (be : Backend) (cfg : Config M)
    (st : MetaState ClfModel M) (x : DataFrame) (y : Col) :
    Except (PyError × MetaState ClfModel M) (MetaState ClfModel M) :=
  if cfg.A = Option.none ∧ cfg.C = Option.none then .error (.typeError, st)
  else
    match adjustFit be cfg.A cfg.C cfg.subset st x with
    | .error e => .error e
    | .ok (st1, xadj, cMat) =>
      match selectA x cfg.A with
      | .error e => .error (e, st1)
      | .ok aMat =>
        match buildB aMat cMat with
        | .error e => .error (e, st1)
        | .ok b_train =>
          let clf := be.fitLogistic b_train y
          let pi_train := probaExpectation clf b_train y.length
          let y_train_adj := residual_target y pi_train
          .ok { st1 with B_est := clf,
                         est_model := cfg.estimator.fit xadj y_train_adj }

/-- `np.rint`: round to the nearest integer, halves to the nearest even. -/
def np_rint (q : ℚ) : ℚ :=
  let f : ℤ := ⌊q⌋
  if q - f < 1 / 2 then (f : ℚ)
  else if (1 / 2 : ℚ) < q - f then ((f + 1 : ℤ) : ℚ)
  else if f % 2 = 0 then (f : ℚ) else ((f + 1 : ℤ) : ℚ)

/-- The final clamping of `MetaClassifier.predict`:
`y_pred = np.rint(y); y_pred[y < min_c] = min_c; y_pred[y > max_c] = max_c`
(the masks test the unrounded value). -/
def clampRound (min_c max_c q : ℚ) : ℚ :=
  let r := np_rint q
  let r1 := if q < min_c then min_c else r
  if q > max_c then max_c else r1

/-- `MetaClassifier.predict(X)`: as the regressor, then the discarded
`predict_proba(B_test)[:, 1]` (an `IndexError` with fewer than two
probability columns), the class-expectation `pi`, reconstruction, and
rounding clamped to the observed class range (`min`/`max` of an empty
`classes_` would raise `ValueError`). -/
def MetaClassifier_predict {M : Type} (cfg : Config M)
    (st : MetaState ClfModel M) (x : DataFrame) :
    Except PyError (MetaState ClfModel M × Col) :=
  match adjustPredict cfg.A cfg.C cfg.subset st x with
  | .error e => .error e
  | .ok (xadj, cMat) =>
    match selectA x cfg.A with
    | .error e => .error e
    | .ok aMat =>
      if cfg.A = Option.none ∧ cfg.C = Option.none then .error .typeError
      else
        match buildB aMat cMat with
        | .error e => .error e
        | .ok b_test =>
          match (st.B_est.proba b_test).get? 1 with
          | Option.none => .error .indexError
          | Option.some _ =>
            let y_test_adj_pred := cfg.estimator.predict st.est_model xadj
            let pi_test := probaExpectation st.B_est b_test y_test_adj_pred.length
            let y_test_adj_pred_pi := reconstruct y_test_adj_pred pi_test
            match st.B_est.classes.min?, st.B_est.classes.max? with
            | Option.some min_c, Option.some max_c =>
              .ok (st, y_test_adj_pred_pi.map (clampRound min_c max_c))
            | _, _ => .error .valueError

/-- `est.fit(X, y)` then `est.predict(X)` on the regressor facade, with the
fit-time state threaded into predict. -/
def regFitPredict {M : Type} (be : Backend) (cfg : Config M)
    (st : MetaState (Mat → Col) M) (x : DataFrame) (y : Col) (x2 : DataFrame) :
    Except PyError Col :=
  ((MetaRegressor_fit be cfg st x y).mapError Prod.fst).bind
    (fun st1 => (MetaRegressor_predict cfg st1 x2).map Prod.snd)

/-- The `LogisticRegression` fitted by `X_adj_fit` for one column: the
covariate block with the column cast to integer labels. -/
def colClf (be : Backend) (c : Mat) (colv : Col) : ClfModel :=
  be.fitLogistic c (colv.map (fun a => ((toInt32 a : ℤ) : ℚ)))

/-- A concrete backend for evaluating the pipeline on sample data: the
linear model predicts zero, the logistic model reports the single class `1`
with probability one everywhere. -/
def demoBackend : Backend where
  fitLinear := fun _b t => fun _b2 => List.replicate t.length 0
  fitLogistic := fun _b _labels =>
    { classes := [1],
      proba := fun b2 => [List.replicate (rowsOf b2) 1],
      predictCls := fun b2 => List.replicate (rowsOf b2) 0 }

/-- A wrapped estimator that memorizes its training set and reproduces the
training targets when asked to predict on the training features. -/
def pairEst : WrappedEstimator (Mat × Col) where
  fit := fun f t => (f, t)
  predict := fun m f => if f = m.1 then m.2 else []

section helper_lemmas

/-- Each `X_adj_fit` iteration takes the logistic branch: the column tag is
the default `"ternary"` (the classifier returned `None`) and the guard
`values == 'dosage'` compares the tag list to a string, which is `False`. -/
theorem X_adj_fit_step_eq (be : Backend) (c : Mat)
    (acc : Mat × List ColEst × List String) (col : String × Col) :
    X_adj_fit_step be c acc col =
      (acc.1 ++ [colAdjClf (colClf be c col.2) c col.2],
       acc.2.1 ++ [ColEst.clf (colClf be c col.2)],
       acc.2.2 ++ ["ternary"]) := by
  simp [X_adj_fit_step, listEqString, pyTruthy, check_if_any_float, colClf]

/-- Characterization of the `X_adj_fit` column loop. -/
theorem X_adj_fit_fold (be : Backend) (c : Mat) :
    ∀ (cols : List (String × Col)) (m : Mat) (es : List ColEst) (vs : List String),
      cols.foldl (X_adj_fit_step be c) (m, es, vs) =
        (m ++ cols.map (fun p => colAdjClf (colClf be c p.2) c p.2),
         es ++ cols.map (fun p => ColEst.clf (colClf be c p.2)),
         vs ++ cols.map (fun _ => "ternary"))
  | [], m, es, vs => by simp
  | p :: rest, m, es, vs => by
    rw [List.foldl_cons, X_adj_fit_step_eq, X_adj_fit_fold be c rest]
    simp

/-- `X_adj_fit` on a non-empty frame, in closed form. -/
theorem X_adj_fit_eq (be : Backend) (x : DataFrame) (c : Mat)
    (h : x.isEmpty = false) :
    X_adj_fit be x c =
      (x.cols.map (fun p => colAdjClf (colClf be c p.2) c p.2),
       x.cols.map (fun p => ColEst.clf (colClf be c p.2)),
       x.cols.map (fun _ => "ternary")) := by
  rw [X_adj_fit, if_neg (by simp [h])]
  rw [X_adj_fit_fold]
  simp

/-- A `mapM` whose steps all succeed returns the list of their values. -/
theorem mapM_ok {α β : Type} (f : α → Except PyError β) (g : α → β) :
    ∀ (l : List α), (∀ a ∈ l, f a = .ok (g a)) → l.mapM f = .ok (l.map g)
  | [], _ => rfl
  | a :: l, h => by
    rw [List.mapM_cons, h a (by simp), mapM_ok f g l (fun b hb => h b (by simp [hb]))]
    rfl

/-- Reindexing a map over positions as a map over the list. -/
theorem range_map_getD {α β : Type} (f : α → β) (d : α) :
    ∀ (l : List α), (List.range l.length).map (fun i => f (l.getD i d)) = l.map f
  | [] => rfl
  | a :: l => by
    rw [List.length_cons, List.range_succ_eq_map, List.map_cons, List.map_map]
    have hc : ((fun i => f ((a :: l).getD i d)) ∘ Nat.succ) =
        (fun i => f (l.getD i d)) := by
      funext i; rfl
    rw [List.getD_cons_zero, hc, range_map_getD f d l, List.map_cons]

/-- Replaying the estimators stored by `X_adj_fit` on the same data
reproduces the fit-time adjusted matrix. -/
theorem X_adj_predict_of_fit (be : Backend) (x : DataFrame) (c : Mat) :
    X_adj_predict x c (X_adj_fit be x c).2.1 (X_adj_fit be x c).2.2 =
      .ok (X_adj_fit be x c).1 := by
  by_cases h : x.isEmpty
  · rw [X_adj_fit, if_pos (by simp [h])]
    rw [X_adj_predict, if_pos (by simp [h])]
  · have h' : x.isEmpty = false := by simpa using h
    rw [X_adj_fit_eq be x c h']
    rw [X_adj_predict, if_neg (by simp [h'])]
    simp only [List.length_map]
    have hm : ∀ i ∈ List.range x.cols.length,
        (if i < min (min x.cols.length x.cols.length) x.cols.length then
          colAdjPredict
            ((x.cols.map (fun p => ColEst.clf (colClf be c p.2))).getD i
              (ColEst.lin (fun _ => [])))
            ((x.cols.map (fun _ => "ternary")).getD i "") c
            ((x.cols.getD i ("", [])).2)
        else .ok (List.replicate x.numRows 0)) =
          .ok (colAdjClf (colClf be c ((x.cols.getD i ("", [])).2)) c
            ((x.cols.getD i ("", [])).2)) := by
      intro i hi
      rw [List.mem_range] at hi
      rw [if_pos (by simpa using hi)]
      have e1 : (x.cols.map (fun p => ColEst.clf (colClf be c p.2))).getD i
          (ColEst.lin (fun _ => [])) =
            ColEst.clf (colClf be c ((x.cols.getD i ("", [])).2)) := by
        rw [List.getD_eq_getElem?_getD, List.getElem?_map,
            List.getElem?_eq_getElem hi, List.getD_eq_getElem?_getD,
            List.getElem?_eq_getElem hi]
        rfl
      have e2 : (x.cols.map (fun _ => "ternary")).getD i "" = "ternary" := by
        rw [List.getD_eq_getElem?_getD, List.getElem?_map,
            List.getElem?_eq_getElem hi]
        rfl
      rw [e1, e2, colAdjPredict, if_neg (by decide)]
    rw [mapM_ok _ _ _ hm]
    rw [range_map_getD (fun p => colAdjClf (colClf be c p.2) c p.2) ("", []) x.cols]

/-- Residualize-then-reconstruct is the identity on the target. -/
theorem reconstruct_residual (y : Col) :
    ∀ (p : Col), y.length ≤ p.length →
      reconstruct (residual_target y p) p = y := by
  induction y with
  | nil => intro p _; rfl
  | cons a ys ih =>
    intro p h
    cases p with
    | nil => simp at h
    | cons b ps =>
      have hy := ih ps (by simpa using h)
      simp only [residual_target, reconstruct, List.zipWith_cons_cons] at hy ⊢
      rw [show a - b + b = a from by ring, hy]

end helper_lemmas


section subset_lemmas

/-- Selecting names filtered for presence never raises. -/
theorem select_filter_ok (df : DataFrame) (l : List String) :
    df.select (l.filter (fun a => df.columns.contains a)) =
      .ok (df.selectP (l.filter (fun a => df.columns.contains a))) := by
  rw [DataFrame.select, if_pos]
  rw [List.all_eq_true]
  intro n hn
  exact (List.mem_filter.mp hn).2

/-- Dropping names that are all present never raises. -/
theorem drop_all_present (df : DataFrame) (ns : List String)
    (h : ∀ n ∈ ns, df.columns.contains n = true) :
    df.drop ns = .ok (df.dropP ns) := by
  rw [DataFrame.drop, if_pos (List.all_eq_true.mpr h)]

/-- The feature names a tuple-subset pair contributes to `sel_subset`:
its feature list restricted to columns present in the feature block. -/
def pairComm (x_train : DataFrame) (p : List String × List String) : List String :=
  p.2.filter (fun a => x_train.columns.contains a)

/-- The `X_adj_fit` result for one tuple-subset pair: its present feature
columns adjusted against its own covariate block `X[subC]`. -/
def pairAdj (be : Backend) (x x_train : DataFrame)
    (p : List String × List String) : Mat × List ColEst × List String :=
  X_adj_fit be (x_train.selectP (pairComm x_train p)) (x.selectP p.1).toMat

/-- Every name `sel_subset` accumulates is present in the feature block. -/
theorem mem_comm_flatten (x_train : DataFrame)
    (pairs : List (List String × List String)) :
    ∀ n ∈ (pairs.map (pairComm x_train)).flatten,
      x_train.columns.contains n = true := by
  intro n hn
  rw [List.mem_flatten] at hn
  obtain ⟨l, hl, hnl⟩ := hn
  rw [List.mem_map] at hl
  obtain ⟨p, _, rfl⟩ := hl
  exact (List.mem_filter.mp hnl).2

/-- Characterization of the tuple-subset fit loop: pairs are processed in
order, each against its own covariate block, the adjusted blocks
accumulate by horizontal concatenation, and the state accumulates the
per-pair estimators, tags and selected names. -/
theorem tupleFitLoop_eq {B M : Type} (be : Backend) (x x_train : DataFrame) :
    ∀ (pairs : List (List String × List String))
      (st : MetaState B M) (acc : Mat),
      (∀ p ∈ pairs, p.1.all (fun n => x.columns.contains n) = true) →
      tupleFitLoop be x x_train pairs st acc =
        .ok ({ st with
                col_ests := st.col_ests ++
                  pairs.map (fun p => (pairAdj be x x_train p).2.1),
                values_list := st.values_list ++
                  pairs.map (fun p => (pairAdj be x x_train p).2.2),
                sel_subset := st.sel_subset ++
                  (pairs.map (pairComm x_train)).flatten },
              (pairs.map (fun p => (pairAdj be x x_train p).1)).foldl hstackAcc acc)
  | [], st, acc, _ => by simp [tupleFitLoop]
  | p :: rest, st, acc, h => by
    have hsel : x.select p.1 = .ok (x.selectP p.1) := by
      rw [DataFrame.select, if_pos (h p (by simp))]
    simp only [tupleFitLoop, hsel, select_filter_ok]
    rw [tupleFitLoop_eq be x x_train rest _ _
      (fun q hq => h q (List.mem_cons_of_mem _ hq))]
    simp only [pairAdj, pairComm, List.map_cons, List.flatten_cons,
      List.foldl_cons, List.append_assoc, List.singleton_append]

/-- Characterization of the tuple-subset predict loop, replaying the
estimators produced by the fit loop on the same data. -/
theorem tuplePredictLoop_eq (be : Backend) (x x_train : DataFrame) :
    ∀ (pairs : List (List String × List String)) (acc : Mat),
      (∀ p ∈ pairs, p.1.all (fun n => x.columns.contains n) = true) →
      tuplePredictLoop x x_train
        (pairs.zip ((pairs.map (fun p => (pairAdj be x x_train p).2.1)).zip
                    (pairs.map (fun p => (pairAdj be x x_train p).2.2)))) acc =
        .ok ((pairs.map (fun p => (pairAdj be x x_train p).1)).foldl hstackAcc acc)
  | [], acc, _ => by simp [tuplePredictLoop]
  | p :: rest, acc, h => by
    have hsel : x.select p.1 = .ok (x.selectP p.1) := by
      rw [DataFrame.select, if_pos (h p (by simp))]
    have hsel2 : x_train.select (pairComm x_train p) =
        .ok (x_train.selectP (pairComm x_train p)) := select_filter_ok x_train p.2
    have hrt : X_adj_predict (x_train.selectP (pairComm x_train p))
        (x.selectP p.1).toMat (pairAdj be x x_train p).2.1
        (pairAdj be x x_train p).2.2 = .ok (pairAdj be x x_train p).1 :=
      X_adj_predict_of_fit be (x_train.selectP (pairComm x_train p))
        (x.selectP p.1).toMat
    simp only [List.map_cons, List.zip_cons_cons, tuplePredictLoop]
    rw [show List.filter (fun a => x_train.columns.contains a) p.2 =
          pairComm x_train p from rfl]
    simp only [hsel, hsel2, hrt]
    rw [List.foldl_cons]
    exact tuplePredictLoop_eq be x x_train rest _
      (fun q hq => h q (List.mem_cons_of_mem _ hq))

end subset_lemmas

section arith_lemmas

/-- Subtracting a zero column is the identity. -/
theorem zipWith_sub_replicate_zero :
    ∀ (l : Col), l.zipWith (fun a b => a - b) (List.replicate l.length 0) = l
  | [] => rfl
  | a :: l => by
    simp only [List.length_cons, List.replicate_succ, List.zipWith_cons_cons,
      sub_zero, zipWith_sub_replicate_zero l]

/-- Fusing one probability-weighted subtraction into the running sum. -/
theorem zipWith_sub_fuse (g : ℚ) :
    ∀ (a w p : Col),
      (a.zipWith (fun x y => x - y) w).zipWith (fun x q => x - g * q) p =
      a.zipWith (fun x y => x - y) (w.zipWith (fun x q => x + g * q) p)
  | [], _, _ => rfl
  | _ :: _, [], _ => rfl
  | _ :: _, _ :: _, [] => rfl
  | x :: a, y :: w, q :: p => by
    simp only [List.zipWith_cons_cons, zipWith_sub_fuse g a w p, List.cons.injEq]
    exact ⟨by ring, trivial⟩

/-- The subtraction fold of `colAdjClf` against the addition fold of
`probaExpectation`, from a common starting difference. -/
theorem foldSub_eq (colv : Col) :
    ∀ (l : List (ℚ × Col)) (w : Col),
      l.foldl (fun acc gp =>
          acc.zipWith (fun x p => x - ((pyInt gp.1 : ℤ) : ℚ) * p) gp.2)
        (colv.zipWith (fun a b => a - b) w) =
      colv.zipWith (fun a b => a - b)
        (l.foldl (fun acc gp =>
            acc.zipWith (fun x p => x + ((pyInt gp.1 : ℤ) : ℚ) * p) gp.2) w)
  | [], _ => rfl
  | gp :: l, w => by
    rw [List.foldl_cons, List.foldl_cons, zipWith_sub_fuse]
    exact foldSub_eq colv l _

/-- The per-column categorical adjustment equals the column minus the
probability-weighted sum of the observed integer class values. -/
theorem colAdjClf_sub_expectation (m : ClfModel) (c : Mat) (colv : Col) :
    colAdjClf m c colv =
      colv.zipWith (fun a b => a - b) (probaExpectation m c colv.length) := by
  have h0 := foldSub_eq colv (m.classes.zip (m.proba c))
    (List.replicate colv.length 0)
  rw [zipWith_sub_replicate_zero] at h0
  rw [colAdjClf, probaExpectation]
  exact h0

/-- `np.rint` is within a half of its argument. -/
theorem np_rint_near (q : ℚ) : |np_rint q - q| ≤ 1 / 2 := by
  have h1 : ((⌊q⌋ : ℤ) : ℚ) ≤ q := Int.floor_le q
  have h2 : q < ((⌊q⌋ : ℤ) : ℚ) + 1 := Int.lt_floor_add_one q
  simp only [np_rint]
  split_ifs with ha hb hc <;> rw [abs_le] <;> push_cast <;>
    constructor <;> linarith

end arith_lemmas

/-- The value `1.5` (written as an explicit reduced fraction). -/
def threeHalves : ℚ := ⟨3, 2, by decide, by decide⟩

/-- C1: calling `fit` with both `A = None` and `C = None` raises eagerly,
before any fitting work, leaving the facade state unchanged — but the
Python-2 style statement `raise(ValueError, msg)` raises a `TypeError`
("exceptions must derive from BaseException") in Python 3, not the
`ValueError` it names.  Both facades are covered, for every estimator,
subset configuration, prior state and input. -/
theorem C1_config_error_raises_typeError {M M' : Type}
    (est : WrappedEstimator M) (est' : WrappedEstimator M')
    (sub sub' : Subset) (st : MetaState (Mat → Col) M)
    (st' : MetaState ClfModel M') (be be' : Backend)
    (x x' : DataFrame) (y y' : Col) :
    MetaRegressor_fit be ⟨est, Option.none, Option.none, sub⟩ st x y =
      .error (.typeError, st) ∧
    MetaClassifier_fit be' ⟨est', Option.none, Option.none, sub'⟩ st' x' y' =
      .error (.typeError, st') := by
  constructor
  · rw [MetaRegressor_fit, if_pos ⟨rfl, rfl⟩]
  · rw [MetaClassifier_fit, if_pos ⟨rfl, rfl⟩]

/-- C2 (failing input): the loop of `check_if_any_float` correctly detects
the non-integer entry of the column `[0.0, 1.5, 2.0]` — its docstring
promises that boolean as the return value — but the function returns
`None`, so `X_adj_fit` tags this column `"ternary"` (categorical) instead
of `"dosage"` (continuous), while `[0, 1, 2, 1, 0]` is also `"ternary"`. -/
theorem C2_float_column_misclassified :
    if_any_float_value [0, threeHalves, 2] = true ∧
    check_if_any_float [0, threeHalves, 2] = Option.none ∧
    (X_adj_fit demoBackend ⟨[("F", [0, threeHalves, 2])]⟩ [[0, 0, 0]]).2.2 =
      ["ternary"] ∧
    (X_adj_fit demoBackend ⟨[("G", [0, 1, 2, 1, 0])]⟩ [[0, 0, 0, 0, 0]]).2.2 =
      ["ternary"] := by
  refine ⟨by decide, rfl, ?_, ?_⟩
  · rw [X_adj_fit_eq _ _ _ (by decide)]
    rfl
  · rw [X_adj_fit_eq _ _ _ (by decide)]
    rfl

/-- C3: for every input, every type tag `X_adj_fit` appends is the default
`"ternary"`, because `check_if_any_float` computes its boolean but returns
`None` to the caller. -/
theorem C3_every_tag_is_default_ternary (be : Backend) (x : DataFrame) (c : Mat) :
    ((X_adj_fit be x c).2.2).all (fun t => t == "ternary") = true ∧
    (∀ v : Col, check_if_any_float v = Option.none) := by
  refine ⟨?_, fun v => rfl⟩
  by_cases h : x.isEmpty
  · rw [X_adj_fit, if_pos (by simp [h])]
    rfl
  · rw [X_adj_fit_eq be x c (by simpa using h)]
    simp only [List.all_eq_true, List.mem_map]
    rintro t ⟨p, hp, rfl⟩
    rfl

/-- C10: every model `X_adj_fit` stores is a multinomial logistic
classifier; the ordinary-least-squares branch is unreachable because its
guard compares the whole tag list to the string `'dosage'`, a cross-type
comparison that is always false. -/
theorem C10_ols_branch_unreachable (be : Backend) (x : DataFrame) (c : Mat) :
    ((X_adj_fit be x c).2.1).all ColEst.isClf = true ∧
    (∀ (vs : List String) (s : String), listEqString vs s = false) := by
  refine ⟨?_, fun vs s => rfl⟩
  by_cases h : x.isEmpty
  · rw [X_adj_fit, if_pos (by simp [h])]
    rfl
  · rw [X_adj_fit_eq be x c (by simpa using h)]
    simp only [List.all_eq_true, List.mem_map]
    rintro e ⟨p, hp, rfl⟩
    rfl

/-- C6: for every (categorical, i.e. every) feature column, `X_adj_fit`
stores the multinomial classifier fitted on the covariate block with the
column cast to integer labels, and the adjusted column is the original
minus the probability-weighted sum of the integer class values, taken over
exactly the classes this fit observed, in the order the model reports
them; `X_adj_predict` replays the same subtraction. -/
theorem C6_per_column_categorical_adjustment (be : Backend) (x : DataFrame)
    (c : Mat) (hx : x.isEmpty = false) :
    (X_adj_fit be x c).2.1 = x.cols.map (fun p => ColEst.clf (colClf be c p.2)) ∧
    (X_adj_fit be x c).1 =
      x.cols.map (fun p => colAdjClf (colClf be c p.2) c p.2) ∧
    (∀ (m : ClfModel) (colv : Col),
      colAdjClf m c colv =
        colv.zipWith (fun a b => a - b) (probaExpectation m c colv.length)) ∧
    (∀ (m : ClfModel) (colv : Col),
      colAdjPredict (ColEst.clf m) "ternary" c colv = .ok (colAdjClf m c colv)) := by
  rw [X_adj_fit_eq be x c hx]
  refine ⟨rfl, rfl, fun m colv => colAdjClf_sub_expectation m c colv, fun m colv => ?_⟩
  rw [colAdjPredict, if_neg (by decide)]

/-- Witness for C6 at a concrete column and backend. -/
theorem C6_witness :
    (X_adj_fit demoBackend ⟨[("N", [0, 1])]⟩ [[5, 7]]).2.1 =
      [("N", ([0, 1] : Col))].map
        (fun p => ColEst.clf (colClf demoBackend [[5, 7]] p.2)) ∧
    colAdjClf (demoBackend.fitLogistic [[5, 7]] [0, 1]) [[5, 7]] [0, 1] =
      List.zipWith (fun a b => a - b) [0, 1]
        (probaExpectation (demoBackend.fitLogistic [[5, 7]] [0, 1]) [[5, 7]]
          (List.length [(0 : ℚ), 1])) :=
  ⟨(C6_per_column_categorical_adjustment demoBackend ⟨[("N", [0, 1])]⟩ [[5, 7]]
      (by decide)).1,
   (C6_per_column_categorical_adjustment demoBackend ⟨[("N", [0, 1])]⟩ [[5, 7]]
      (by decide)).2.2.1 (demoBackend.fitLogistic [[5, 7]] [0, 1]) [0, 1]⟩

/-- Flat-list subset at fit time: the configured names are restricted to
those present (`comm_features`), that group is adjusted against `C`, and
the output is the adjusted group followed by the frame with
`comm_features` dropped; the estimators and tags are stored. -/
theorem adjustFit_list_eq {B M : Type} (be : Backend) (a : Option (List String))
    (cn names : List String) (x x_train : DataFrame) (st0 : MetaState B M)
    (hff : featureFrame a (Option.some cn) x = .ok x_train)
    (hcn : cn.all (fun n => x.columns.contains n) = true) :
    adjustFit be a (Option.some cn) (Subset.list names) st0 x =
      .ok ({ st0 with
              col_ests := [(X_adj_fit be
                (x_train.selectP (names.filter (fun n => x_train.columns.contains n)))
                (x.selectP cn).toMat).2.1],
              values_list := [(X_adj_fit be
                (x_train.selectP (names.filter (fun n => x_train.columns.contains n)))
                (x.selectP cn).toMat).2.2] },
           hstack (X_adj_fit be
               (x_train.selectP (names.filter (fun n => x_train.columns.contains n)))
               (x.selectP cn).toMat).1
             (x_train.dropP (names.filter (fun n => x_train.columns.contains n))).toMat,
           Option.some (x.selectP cn).toMat) := by
  have hsel : x.select cn = .ok (x.selectP cn) := by
    rw [DataFrame.select, if_pos hcn]
  have hsub := select_filter_ok x_train names
  have hdropc : x_train.drop (names.filter (fun n => x_train.columns.contains n)) =
      .ok (x_train.dropP (names.filter (fun n => x_train.columns.contains n))) :=
    drop_all_present _ _ (fun n hn => (List.mem_filter.mp hn).2)
  simp only [adjustFit, hff, hsel, hsub, hdropc]

/-- Flat-list subset at predict time with a configured name that is absent
from the feature columns: the remainder is formed by
`X_test.drop(self.subset)` (the raw configured list, not the restricted
`comm_features`), so pandas raises `KeyError`. -/
theorem adjustPredict_list_missing {B M : Type} (a : Option (List String))
    (cn names : List String) (x x_test : DataFrame) (st : MetaState B M)
    (hff : featureFrame a (Option.some cn) x = .ok x_test)
    (hcn : cn.all (fun n => x.columns.contains n) = true)
    (hmiss : names.all (fun n => x_test.columns.contains n) = false) :
    adjustPredict a (Option.some cn) (Subset.list names) st x =
      .error .keyError := by
  have hsel : x.select cn = .ok (x.selectP cn) := by
    rw [DataFrame.select, if_pos hcn]
  have hsub := select_filter_ok x_test names
  have hdropn : x_test.drop names = .error .keyError := by
    rw [DataFrame.drop, hmiss]
    rfl
  simp only [adjustPredict, hff, hsel, hsub, hdropn]

/-- C4 (amended): with a flat-list subset, fit restricts the configured
names to those present, adjusts exactly that group against `C` and
assembles `[adjusted group, remainder]` without error; predict also
restricts the group it adjusts, but forms the remainder by dropping the
raw configured list, so a configured name absent from the feature columns
raises a `KeyError` instead of being silently ignored. -/
theorem C4_flat_list_amended {B M : Type} (be : Backend)
    (a : Option (List String)) (cn names : List String)
    (x x_train : DataFrame) (st0 st : MetaState B M)
    (hff : featureFrame a (Option.some cn) x = .ok x_train)
    (hcn : cn.all (fun n => x.columns.contains n) = true)
    (hmiss : names.all (fun n => x_train.columns.contains n) = false) :
    adjustFit be a (Option.some cn) (Subset.list names) st0 x =
      .ok ({ st0 with
              col_ests := [(X_adj_fit be
                (x_train.selectP (names.filter (fun n => x_train.columns.contains n)))
                (x.selectP cn).toMat).2.1],
              values_list := [(X_adj_fit be
                (x_train.selectP (names.filter (fun n => x_train.columns.contains n)))
                (x.selectP cn).toMat).2.2] },
           hstack (X_adj_fit be
               (x_train.selectP (names.filter (fun n => x_train.columns.contains n)))
               (x.selectP cn).toMat).1
             (x_train.dropP (names.filter (fun n => x_train.columns.contains n))).toMat,
           Option.some (x.selectP cn).toMat) ∧
    adjustPredict a (Option.some cn) (Subset.list names) st x =
      .error .keyError :=
  ⟨adjustFit_list_eq be a cn names x x_train st0 hff hcn,
   adjustPredict_list_missing a cn names x x_train st hff hcn hmiss⟩

/-- The worked flat-list scenario: covariate `C1`, feature columns
`N6`, `N7`, `N8`, configured subset `["N6", "N7", "X9"]` with `X9` absent. -/
def X4 : DataFrame :=
  ⟨[("C1", [0, 1]), ("N6", [10, 20]), ("N7", [30, 40]), ("N8", [50, 60])]⟩

/-- The feature block of the flat-list scenario after dropping `C`. -/
def X4train : DataFrame := ⟨[("N6", [10, 20]), ("N7", [30, 40]), ("N8", [50, 60])]⟩

/-- The flat-list scenario configuration. -/
def cfg4 : Config (Mat × Col) :=
  ⟨pairEst, Option.none, Option.some ["C1"], Subset.list ["N6", "N7", "X9"]⟩

/-- An unfit initial facade state for the regressor scenarios. -/
def st4 : MetaState (Mat → Col) (Mat × Col) := ⟨[], [], [], fun _ => [], ([], [])⟩

/-- The target of the flat-list scenario. -/
def y4 : Col := [100, 200]

/-- Witness for C4 at the scenario of the claim: columns `[N6, N7, N8]`,
subset `[N6, N7, X9]`; fit succeeds, restricting to `{N6, N7}` with
remainder `{N8}`, and predict raises a `KeyError`. -/
theorem C4_flat_list_witness :
    adjustFit demoBackend Option.none (Option.some ["C1"])
        (Subset.list ["N6", "N7", "X9"]) st4 X4 =
      .ok ({ st4 with
              col_ests := [(X_adj_fit demoBackend
                (X4train.selectP (["N6", "N7", "X9"].filter
                  (fun n => X4train.columns.contains n)))
                (X4.selectP ["C1"]).toMat).2.1],
              values_list := [(X_adj_fit demoBackend
                (X4train.selectP (["N6", "N7", "X9"].filter
                  (fun n => X4train.columns.contains n)))
                (X4.selectP ["C1"]).toMat).2.2] },
           hstack (X_adj_fit demoBackend
               (X4train.selectP (["N6", "N7", "X9"].filter
                 (fun n => X4train.columns.contains n)))
               (X4.selectP ["C1"]).toMat).1
             (X4train.dropP (["N6", "N7", "X9"].filter
               (fun n => X4train.columns.contains n))).toMat,
           Option.some (X4.selectP ["C1"]).toMat) ∧
    adjustPredict Option.none (Option.some ["C1"])
        (Subset.list ["N6", "N7", "X9"]) st4 X4 = .error .keyError :=
  C4_flat_list_amended demoBackend Option.none ["C1"] ["N6", "N7", "X9"]
    X4 X4train st4 st4 rfl (by decide) (by decide)

/-- C4 (counterexample): on the claim's own scenario (feature columns
`N6`, `N7`, `N8` and subset `["N6", "N7", "X9"]` with `X9` absent), `fit`
succeeds but `predict` raises a `KeyError` — refuting "no error raised in
either phase". -/
theorem C4_predict_raises_keyError_cex :
    regFitPredict demoBackend cfg4 st4 X4 y4 X4 = .error .keyError ∧
    (MetaRegressor_fit demoBackend cfg4 st4 X4 y4).toOption.isSome = true := by
  have h1 := adjustFit_list_eq demoBackend Option.none ["C1"] ["N6", "N7", "X9"]
    X4 X4train st4 rfl (by decide)
  have h2 : ∀ st : MetaState (Mat → Col) (Mat × Col),
      adjustPredict Option.none (Option.some ["C1"])
        (Subset.list ["N6", "N7", "X9"]) st X4 = .error .keyError :=
    fun st => adjustPredict_list_missing Option.none ["C1"] ["N6", "N7", "X9"]
      X4 X4train st rfl (by decide) (by decide)
  constructor
  · simp only [regFitPredict, MetaRegressor_fit, cfg4, h1, selectA, buildB,
      MetaRegressor_predict, h2, Except.mapError, Except.bind, Except.map]
    simp
  · simp only [MetaRegressor_fit, cfg4, h1, selectA, buildB, Except.toOption,
      Option.isSome]
    simp

/-- C5: with a partitioned (tuple) subset, fit processes the pairs in the
given order, adjusts each pair's present feature columns against that
pair's own covariate block only, concatenates the adjusted blocks
horizontally in pair order, persists the union of selected names in
`sel_subset` and the per-pair estimators/tags in `col_ests`/`values_list`;
predict, from any state carrying exactly that persisted data, replays the
same blocks and drops the persisted `sel_subset` to form the remainder. -/
theorem C5_partitioned_subsets {B M : Type} (be : Backend)
    (a : Option (List String)) (cn : List String)
    (pairs : List (List String × List String)) (x x_train : DataFrame)
    (st0 : MetaState B M)
    (hff : featureFrame a (Option.some cn) x = .ok x_train)
    (hcn : cn.all (fun n => x.columns.contains n) = true)
    (hp : ∀ p ∈ pairs, p.1.all (fun n => x.columns.contains n) = true) :
    adjustFit be a (Option.some cn) (Subset.tuple pairs) st0 x =
      .ok ({ st0 with
              col_ests := pairs.map (fun p => (pairAdj be x x_train p).2.1),
              values_list := pairs.map (fun p => (pairAdj be x x_train p).2.2),
              sel_subset := (pairs.map (pairComm x_train)).flatten },
           hstack
             ((pairs.map (fun p => (pairAdj be x x_train p).1)).foldl hstackAcc [])
             (x_train.dropP ((pairs.map (pairComm x_train)).flatten)).toMat,
           Option.some (x.selectP cn).toMat) ∧
    (∀ st : MetaState B M,
      st.col_ests = pairs.map (fun p => (pairAdj be x x_train p).2.1) →
      st.values_list = pairs.map (fun p => (pairAdj be x x_train p).2.2) →
      st.sel_subset = (pairs.map (pairComm x_train)).flatten →
      adjustPredict a (Option.some cn) (Subset.tuple pairs) st x =
        .ok (hstack
               ((pairs.map (fun p => (pairAdj be x x_train p).1)).foldl hstackAcc [])
               (x_train.dropP ((pairs.map (pairComm x_train)).flatten)).toMat,
             Option.some (x.selectP cn).toMat)) := by
  have hsel : x.select cn = .ok (x.selectP cn) := by
    rw [DataFrame.select, if_pos hcn]
  have hdropu : x_train.drop ((pairs.map (pairComm x_train)).flatten) =
      .ok (x_train.dropP ((pairs.map (pairComm x_train)).flatten)) :=
    drop_all_present _ _ (mem_comm_flatten x_train pairs)
  constructor
  · simp only [adjustFit, hff, hsel]
    rw [tupleFitLoop_eq be x x_train pairs _ _ hp]
    simp only [List.nil_append, hdropu]
  · intro st h1 h2 h3
    simp only [adjustPredict, hff, hsel, h1, h2, h3]
    rw [tuplePredictLoop_eq be x x_train pairs _ hp]
    simp only [hdropu]

/-- The worked partitioned scenario: covariates `N1`, `N2`; `N6`/`N7`
adjusted against `N1` and `N8`/`N9` against `N2`; `N10` passes through. -/
def X5 : DataFrame :=
  ⟨[("N1", [0, 1]), ("N2", [1, 0]), ("N6", [10, 20]), ("N7", [30, 40]),
    ("N8", [50, 60]), ("N9", [70, 80]), ("N10", [90, 95])]⟩

/-- The feature block of the partitioned scenario after dropping `C`. -/
def X5train : DataFrame :=
  ⟨[("N6", [10, 20]), ("N7", [30, 40]), ("N8", [50, 60]), ("N9", [70, 80]),
    ("N10", [90, 95])]⟩

/-- The partitioned subset of the scenario. -/
def pairs5 : List (List String × List String) :=
  [(["N1"], ["N6", "N7"]), (["N2"], ["N8", "N9"])]

/-- A state carrying exactly what the partitioned fit persists. -/
def st5 : MetaState (Mat → Col) (Mat × Col) :=
  ⟨pairs5.map (fun p => (pairAdj demoBackend X5 X5train p).2.1),
   pairs5.map (fun p => (pairAdj demoBackend X5 X5train p).2.2),
   (pairs5.map (pairComm X5train)).flatten, fun _ => [], ([], [])⟩

/-- Witness for C5 at the scenario of the claim. -/
theorem C5_partitioned_witness :
    adjustFit demoBackend Option.none (Option.some ["N1", "N2"])
        (Subset.tuple pairs5) st4 X5 =
      .ok ({ st4 with
              col_ests := pairs5.map (fun p => (pairAdj demoBackend X5 X5train p).2.1),
              values_list := pairs5.map (fun p => (pairAdj demoBackend X5 X5train p).2.2),
              sel_subset := (pairs5.map (pairComm X5train)).flatten },
           hstack
             ((pairs5.map (fun p => (pairAdj demoBackend X5 X5train p).1)).foldl
               hstackAcc [])
             (X5train.dropP ((pairs5.map (pairComm X5train)).flatten)).toMat,
           Option.some (X5.selectP ["N1", "N2"]).toMat) ∧
    adjustPredict Option.none (Option.some ["N1", "N2"])
        (Subset.tuple pairs5) st5 X5 =
      .ok (hstack
             ((pairs5.map (fun p => (pairAdj demoBackend X5 X5train p).1)).foldl
               hstackAcc [])
             (X5train.dropP ((pairs5.map (pairComm X5train)).flatten)).toMat,
           Option.some (X5.selectP ["N1", "N2"]).toMat) :=
  ⟨(C5_partitioned_subsets demoBackend Option.none ["N1", "N2"] pairs5 X5
      X5train st4 rfl (by decide) (by decide)).1,
   (C5_partitioned_subsets demoBackend Option.none ["N1", "N2"] pairs5 X5
      X5train st4 rfl (by decide) (by decide)).2 st5 rfl rfl rfl⟩

/-- C7: residualization and reconstruction are mutually inverse
(`reconstruct(residual_target(y, pi), pi) = y`), hence when the wrapped
estimator is identity-like (it reproduces its training targets on its
training features) and the nuisance models are deterministic, `fit`
followed by `predict` on the training data returns `y` exactly. -/
theorem C7_residual_reconstruct_roundtrip {M : Type} (be : Backend)
    (est : WrappedEstimator M) (cn : List String) (x : DataFrame)
    (st0 : MetaState (Mat → Col) M) (y : Col)
    (hcn : cn.all (fun n => x.columns.contains n) = true)
    (hmem : ∀ f t, est.predict (est.fit f t) f = t)
    (hrow : ∀ b t, ((be.fitLinear b t) b).length = t.length) :
    reconstruct
        (residual_target y (be.fitLinear (x.selectP cn).toMat y (x.selectP cn).toMat))
        (be.fitLinear (x.selectP cn).toMat y (x.selectP cn).toMat) = y ∧
    regFitPredict be ⟨est, Option.none, Option.some cn, Subset.flatNone⟩ st0 x y x =
      .ok y := by
  have hpi : ((be.fitLinear (x.selectP cn).toMat y) (x.selectP cn).toMat).length =
      y.length := hrow _ y
  have hid : reconstruct
      (residual_target y (be.fitLinear (x.selectP cn).toMat y (x.selectP cn).toMat))
      (be.fitLinear (x.selectP cn).toMat y (x.selectP cn).toMat) = y :=
    reconstruct_residual y _ (by rw [hpi])
  refine ⟨hid, ?_⟩
  have hdrop : x.drop cn = .ok (x.dropP cn) := by
    rw [DataFrame.drop, if_pos hcn]
  have hff : featureFrame Option.none (Option.some cn) x = .ok (x.dropP cn) := by
    simp only [featureFrame, dropOpt, Except.bind, hdrop]
  have hsel : x.select cn = .ok (x.selectP cn) := by
    rw [DataFrame.select, if_pos hcn]
  have hadj : adjustFit be Option.none (Option.some cn) Subset.flatNone st0 x =
      .ok ({ st0 with
              col_ests := [(X_adj_fit be (x.dropP cn) (x.selectP cn).toMat).2.1],
              values_list := [(X_adj_fit be (x.dropP cn) (x.selectP cn).toMat).2.2] },
           (X_adj_fit be (x.dropP cn) (x.selectP cn).toMat).1,
           Option.some (x.selectP cn).toMat) := by
    simp only [adjustFit, hff, hsel]
  have hfit : MetaRegressor_fit be ⟨est, Option.none, Option.some cn, Subset.flatNone⟩
      st0 x y =
      .ok { col_ests := [(X_adj_fit be (x.dropP cn) (x.selectP cn).toMat).2.1],
            values_list := [(X_adj_fit be (x.dropP cn) (x.selectP cn).toMat).2.2],
            sel_subset := st0.sel_subset,
            B_est := be.fitLinear (x.selectP cn).toMat y,
            est_model := est.fit (X_adj_fit be (x.dropP cn) (x.selectP cn).toMat).1
              (residual_target y
                (be.fitLinear (x.selectP cn).toMat y (x.selectP cn).toMat)) } := by
    simp only [MetaRegressor_fit, hadj, selectA, buildB]
    simp
  have hrt : X_adj_predict (x.dropP cn) (x.selectP cn).toMat
      (X_adj_fit be (x.dropP cn) (x.selectP cn).toMat).2.1
      (X_adj_fit be (x.dropP cn) (x.selectP cn).toMat).2.2 =
      .ok (X_adj_fit be (x.dropP cn) (x.selectP cn).toMat).1 :=
    X_adj_predict_of_fit be (x.dropP cn) (x.selectP cn).toMat
  have hpadj : adjustPredict Option.none (Option.some cn) Subset.flatNone
      { col_ests := [(X_adj_fit be (x.dropP cn) (x.selectP cn).toMat).2.1],
        values_list := [(X_adj_fit be (x.dropP cn) (x.selectP cn).toMat).2.2],
        sel_subset := st0.sel_subset,
        B_est := be.fitLinear (x.selectP cn).toMat y,
        est_model := est.fit (X_adj_fit be (x.dropP cn) (x.selectP cn).toMat).1
          (residual_target y
            (be.fitLinear (x.selectP cn).toMat y (x.selectP cn).toMat)) } x =
      .ok ((X_adj_fit be (x.dropP cn) (x.selectP cn).toMat).1,
           Option.some (x.selectP cn).toMat) := by
    simp only [adjustPredict, hff, hsel, List.get?, hrt, Except.map]
  rw [regFitPredict, hfit]
  simp only [Except.mapError, Except.bind]
  rw [MetaRegressor_predict, hpadj]
  simp only [selectA, buildB]
  simp only [Except.map]
  simp only [hmem]
  rw [hid]
  simp

/-- Witness for C7: with the memorizing wrapped estimator and the
zero-effect linear backend, fit-then-predict on the training data returns
the training target exactly. -/
theorem C7_roundtrip_witness :
    reconstruct
        (residual_target y4
          (demoBackend.fitLinear (X4.selectP ["C1"]).toMat y4 (X4.selectP ["C1"]).toMat))
        (demoBackend.fitLinear (X4.selectP ["C1"]).toMat y4 (X4.selectP ["C1"]).toMat) =
      y4 ∧
    regFitPredict demoBackend ⟨pairEst, Option.none, Option.some ["C1"], Subset.flatNone⟩
      st4 X4 y4 X4 = .ok y4 :=
  C7_residual_reconstruct_roundtrip demoBackend pairEst ["C1"] X4 st4 y4
    (by decide) (fun f t => by simp [pairEst]) (fun b t => by simp [demoBackend])

/-- `np.rint` always produces an integer value. -/
theorem np_rint_int (q : ℚ) : ∃ k : ℤ, np_rint q = (k : ℚ) := by
  simp only [np_rint]
  split_ifs with h1 h2 h3
  · exact ⟨⌊q⌋, rfl⟩
  · exact ⟨⌊q⌋ + 1, rfl⟩
  · exact ⟨⌊q⌋, rfl⟩
  · exact ⟨⌊q⌋ + 1, rfl⟩

/-- C8: `MetaClassifier.predict` maps `clampRound min_c max_c` over every
reconstructed prediction, where `min_c`/`max_c` are the least/greatest
observed class values of the fitted outcome model; a value below `min_c`
becomes `min_c`, a value above `max_c` becomes `max_c`, and an in-range
value becomes `np.rint` of itself — an integer within a half of it. -/
theorem C8_predict_clamps_and_rounds {M : Type} (cfg : Config M)
    (st : MetaState ClfModel M) (x : DataFrame) (xadj : Mat)
    (cMat aMat : Option Mat) (b_test : Mat) (pcol : Col) (min_c max_c : ℚ)
    (hadj : adjustPredict cfg.A cfg.C cfg.subset st x = .ok (xadj, cMat))
    (hsA : selectA x cfg.A = .ok aMat)
    (hnn : ¬(cfg.A = Option.none ∧ cfg.C = Option.none))
    (hB : buildB aMat cMat = .ok b_test)
    (hproba : (st.B_est.proba b_test).get? 1 = Option.some pcol)
    (hmin : st.B_est.classes.min? = Option.some min_c)
    (hmax : st.B_est.classes.max? = Option.some max_c)
    (hmm : min_c ≤ max_c) :
    MetaClassifier_predict cfg st x =
      .ok (st, (reconstruct (cfg.estimator.predict st.est_model xadj)
          (probaExpectation st.B_est b_test
            (cfg.estimator.predict st.est_model xadj).length)).map
        (clampRound min_c max_c)) ∧
    (∀ q : ℚ, q < min_c → clampRound min_c max_c q = min_c) ∧
    (∀ q : ℚ, max_c < q → clampRound min_c max_c q = max_c) ∧
    (∀ q : ℚ, min_c ≤ q → q ≤ max_c →
      clampRound min_c max_c q = np_rint q ∧ |np_rint q - q| ≤ 1 / 2 ∧
      ∃ k : ℤ, np_rint q = (k : ℚ)) := by
  refine ⟨?_, ?_, ?_, ?_⟩
  · simp only [MetaClassifier_predict, hadj, hsA]
    rw [if_neg hnn]
    simp only [hB, hproba, hmin, hmax]
  · intro q hq
    have hng : ¬q > max_c := by
      rw [not_lt]
      linarith
    simp only [clampRound]
    rw [if_neg hng, if_pos hq]
  · intro q hq
    simp only [clampRound]
    rw [if_pos hq]
  · intro q h1 h2
    refine ⟨?_, np_rint_near q, np_rint_int q⟩
    simp only [clampRound]
    rw [if_neg (not_lt.mpr h2), if_neg (not_lt.mpr h1)]

/-- C9: neither facade's `predict` mutates the persisted fitted state:
the state a successful `predict` returns is the state it was given (both
methods assign no attribute). -/
theorem C9_predict_mutates_no_state {M M' : Type} (cfg : Config M)
    (cfg' : Config M') (st : MetaState (Mat → Col) M)
    (st' : MetaState ClfModel M') (x x' : DataFrame) :
    (MetaRegressor_predict cfg st x).map Prod.fst =
      (MetaRegressor_predict cfg st x).map (fun _ => st) ∧
    (MetaClassifier_predict cfg' st' x').map Prod.fst =
      (MetaClassifier_predict cfg' st' x').map (fun _ => st') := by
  constructor
  · unfold MetaRegressor_predict
    repeat' split
    all_goals rfl
  · unfold MetaClassifier_predict
    repeat' split
    all_goals rfl

/-- Data for the classifier clamping scenario: one covariate `A1`. -/
def X8 : DataFrame := ⟨[("A1", [1, 2]), ("F1", [5, 6])]⟩

/-- An outcome model with observed classes `{0, 1, 2}`. -/
def clf8 : ClfModel :=
  ⟨[0, 1, 2], fun _ => [[0, 0], [0, 0], [1, 1]], fun _ => [0, 0]⟩

/-- Classifier facade configuration with only `A` set. -/
def cfg8 : Config Unit :=
  ⟨⟨fun _ _ => (), fun _ _ => [5, -1]⟩, Option.some ["A1"], Option.none,
   Subset.flatNone⟩

/-- A fitted classifier facade state holding `clf8` as outcome model. -/
def st8 : MetaState ClfModel Unit := ⟨[], [], [], clf8, ()⟩

/-- Witness for C8: with observed classes `{0, 1, 2}`, predict applies
`clampRound 0 2`; `-1` clamps to `0`, `3` clamps to `2`, and the in-range
`1` rounds to `np.rint 1`. -/
theorem C8_clamp_witness :
    MetaClassifier_predict cfg8 st8 X8 =
      .ok (st8, (reconstruct
          (cfg8.estimator.predict st8.est_model (X8.dropP ["A1"]).toMat)
          (probaExpectation st8.B_est (X8.selectP ["A1"]).toMat
            (cfg8.estimator.predict st8.est_model (X8.dropP ["A1"]).toMat).length)).map
        (clampRound 0 2)) ∧
    clampRound 0 2 (-1) = 0 ∧
    clampRound 0 2 3 = 2 ∧
    (clampRound 0 2 1 = np_rint 1 ∧ |np_rint 1 - 1| ≤ 1 / 2 ∧
      ∃ k : ℤ, np_rint 1 = (k : ℚ)) := by
  have h := C8_predict_clamps_and_rounds cfg8 st8 X8 (X8.dropP ["A1"]).toMat
    Option.none (Option.some (X8.selectP ["A1"]).toMat)
    (X8.selectP ["A1"]).toMat [0, 0] 0 2 rfl rfl (by simp [cfg8]) rfl rfl
    (by decide) (by decide) (by decide)
  exact ⟨h.1, h.2.1 (-1) (by decide), h.2.2.1 3 (by decide),
    h.2.2.2 1 (by decide) (by decide)⟩
